import Mathlib

/-!
Shallow embedding of the FSx waste-analyzer analysis engine
(`src/lambda/src/main.py`).  Numeric values (Python ints and floats) are
modelled as `ℤ` and `ℚ`; collaborator calls (FSx/CloudWatch/pricing APIs)
are modelled as input data carried on the descriptor records; an exception
raised while processing one volume is modelled by a Boolean oracle `ok`
saying which volumes process without failure.  The two string fields that
render a number to two decimals or the sentinel `"N/A"`
(`efficiency_ratio`, `storage_efficiency`) are modelled as `Option ℚ`,
with `none` standing for the sentinel and `some q` for the rendering of
`q`; all other report fields carry the computed values directly.
-/

namespace FsxAnalyzer

/-- Python list indexing `values[i]` for an `int` index: non-negative
indices from the front, negative indices wrap from the back, and an
out-of-range index gives `none` (an `IndexError` in the source). -/
def pyGet (l : List ℚ) (i : ℤ) : Option ℚ :=
  let j : ℤ := if i < 0 then (l.length : ℤ) + i else i
  if 0 ≤ j then l.get? j.toNat else none

/-- Python `int(x)` applied to a float: truncation toward zero. -/
def pyInt (q : ℚ) : ℤ :=
  if 0 ≤ q then ⌊q⌋ else ⌈q⌉

/-- `pct_calc(values, p)` from the source: sort ascending, rank
`r = (len-1)*(p/100)`, return the sample at `r` when `floor r = ceil r`
and otherwise interpolate linearly; an empty list, or an index error
(caught by the `try`/`except`), yields `0`. -/
def pct_calc (values : List ℚ) (p : ℚ) : ℚ :=
  if values = [] then 0
  else
    let sv := values.insertionSort (· ≤ ·)
    let n : ℤ := (values.length : ℤ) - 1
    let r : ℚ := (n : ℚ) * (p / 100)
    let lo : ℤ := ⌊r⌋
    let hi : ℤ := ⌈r⌉
    if lo = hi then (pyGet sv lo).getD 0
    else
      match pyGet sv lo, pyGet sv hi with
      | some a, some b => a + (r - (lo : ℚ)) * (b - a)
      | _, _ => 0

/-- The byte-to-MiB divisor `mb = 1048576` from the source. -/
def mb : ℚ := 1048576

/-- `cold_io_threshold = 0.01` MB/s from the source. -/
def cold_io_threshold : ℚ := 1 / 100

/-- The per-invocation configuration read from the environment in
`lambda_handler`, plus the unit storage price returned by the pricing
collaborator (`get_storage_cost`). -/
structure Config where
  region : String
  lookback_days : ℤ
  period : ℚ
  pctl : ℚ
  fsid : String
  top_vols : ℤ
  price : ℚ
deriving DecidableEq

/-- `p95_mb_s` from the source: convert each raw per-interval byte sum to
`(bytes / mb) / period` MB/s, sort, and take `pct_calc` at the configured
percentile.  The metric series itself is collaborator data, passed in. -/
def p95_mb_s (cfg : Config) (series : List ℚ) : ℚ :=
  let mb_per_s := series.map (fun val => (val / mb) / cfg.period)
  pct_calc (mb_per_s.insertionSort (· ≤ ·)) cfg.pctl

/-- A `{Key, Value}` tag pair. -/
structure Tag where
  key : String
  value : String
deriving DecidableEq

/-- A storage virtual machine: id and display name. -/
structure Svm where
  id : String
  name : String
deriving DecidableEq

/-- A volume descriptor together with the collaborator data the analysis
consumes for it: its metric series over the lookback window
(`get_series` for `DataReadBytes` / `DataWriteBytes`) and the 45-day
byte-sum series (`get_io_usage_45d`, `none` when that call failed). -/
structure Vol where
  volumeId : String
  svmId : String
  junctionPath : String
  sizeInMegabytes : ℤ
  tieringPolicyName : String
  logicalSizeInBytes : ℤ
  physicalSizeInBytes : ℤ
  tags : List Tag
  readSeries : List ℚ
  writeSeries : List ℚ
  io45 : Option (List ℚ × List ℚ)
deriving DecidableEq

/-- A filesystem descriptor together with its SVMs and volumes as
returned by the control-plane collaborator. -/
structure Fs where
  fileSystemId : String
  fsVersion : String
  lifecycle : String
  storageCapacity : ℤ
  throughputCapacity : ℤ
  deploymentType : String
  kmsKeyId : Option String
  tags : List Tag
  svms : List Svm
  vols : List Vol
deriving DecidableEq

/-- Recommendation severity / kind, including the layout-only
`separator`. -/
inductive RecType where
  | info
  | warning
  | critical
  | separator
deriving DecidableEq

/-- The message of a recommendation, as a tagged value carrying the
numbers interpolated into the source's f-string (string rendering is
abstracted away; distinct constructors are distinct messages). -/
inductive Msg where
  | emptyMsg
  | encrypted
  | notEncrypted
  | noFilesystems
  | volSmall (size_gib : ℤ)
  | volLowIo (total_io : ℚ)
  | volLowEfficiency (ratio : ℚ)
  | slackHigh (pct : ℤ)
  | slackLow (pct : ℤ)
  | throughputExceeds (total : ℚ) (capacity : ℤ) (target : ℤ)
  | lowEfficiencyFs (pct : ℚ)
deriving DecidableEq

/-- One recommendation entry: `{type, message}`. -/
structure Rec where
  rtype : RecType
  msg : Msg
deriving DecidableEq

/-- `check_encryption` from the source: a warning when the descriptor has
no (or an empty) `KmsKeyId`, otherwise an info entry.  The exception
branch (collaborator failure) is out of scope. -/
def check_encryption (fs : Fs) : Rec :=
  if fs.kmsKeyId.getD "" = "" then ⟨RecType.warning, Msg.notEncrypted⟩
  else ⟨RecType.info, Msg.encrypted⟩

/-- The `long_term_io` record computed in `process_volume` from the
result of `get_io_usage_45d`: each direction's byte sums divided by
`45 * 86400` seconds, or zero for both when the call failed. -/
def long_term_io (io45 : Option (List ℚ × List ℚ)) : ℚ × ℚ :=
  match io45 with
  | some (r, w) => (r.sum / (45 * 86400), w.sum / (45 * 86400))
  | none => (0, 0)

/-- A volume report: the dict returned by `process_volume` on success.
`efficiency_ratio` is `none` for the `"N/A"` rendering (ratio `0`). -/
structure VolRep where
  id : String
  svmid : String
  svmname : String
  path : String
  size_gib : ℤ
  tiering_policy : String
  tags : List Tag
  read_throughput_mbs : ℚ
  write_throughput_mbs : ℚ
  total_throughput_mbs : ℚ
  efficiency_ratio : Option ℚ
  usage_percentage : ℚ
  monthly_cost_estimate : ℚ
  read_45d : ℚ
  write_45d : ℚ
  recommendations : List Rec
deriving DecidableEq

/-- The successful body of `process_volume` from the source (everything
inside the `try`). -/
def process_volume_ok (cfg : Config) (svms : List Svm) (v : Vol) : VolRep :=
  let sizegib : ℤ := ⌊(v.sizeInMegabytes : ℚ) / 1024⌋
  let formatted_vol_tags := v.tags.filter (fun t => t.key != "" && t.value != "")
  let svmname := ((svms.find? (fun svm => svm.id == v.svmId)).map Svm.name).getD ""
  let r95 := p95_mb_s cfg v.readSeries
  let w95 := p95_mb_s cfg v.writeSeries
  let total_io := r95 + w95
  let lt := long_term_io v.io45
  let efficiency_ratio : ℚ :=
    if v.physicalSizeInBytes > 0
    then (v.logicalSizeInBytes : ℚ) / (v.physicalSizeInBytes : ℚ) else 0
  let recs0 : List Rec := []
  let recs1 := recs0 ++
    (if sizegib < 10 then
      [⟨RecType.info, Msg.volSmall sizegib⟩, ⟨RecType.separator, Msg.emptyMsg⟩]
     else [])
  let recs2 := recs1 ++
    (if total_io < cold_io_threshold then
      [⟨RecType.warning, Msg.volLowIo total_io⟩, ⟨RecType.separator, Msg.emptyMsg⟩]
     else [])
  let recs3 := recs2 ++
    (if efficiency_ratio > 0 ∧ efficiency_ratio < 3 / 2 then
      [⟨RecType.info, Msg.volLowEfficiency efficiency_ratio⟩]
     else [])
  { id := v.volumeId
    svmid := v.svmId
    svmname := svmname
    path := v.junctionPath
    size_gib := sizegib
    tiering_policy := v.tieringPolicyName
    tags := formatted_vol_tags
    read_throughput_mbs := r95
    write_throughput_mbs := w95
    total_throughput_mbs := total_io
    efficiency_ratio := if efficiency_ratio > 0 then some efficiency_ratio else none
    usage_percentage :=
      if sizegib > 0
      then ((v.physicalSizeInBytes : ℚ) / ((sizegib : ℚ) * 1024 * 1024 * 1024)) * 100
      else 0
    monthly_cost_estimate := cfg.price * (sizegib : ℚ)
    read_45d := lt.1
    write_45d := lt.2
    recommendations := recs3 }

/-- `process_volume` from the source: the `try`/`except` returns `None`
when any step for the volume fails; the oracle `ok` says which volumes
process without an exception. -/
def process_volume (cfg : Config) (ok : Vol → Bool) (svms : List Svm) (v : Vol) :
    Option VolRep :=
  if ok v then some (process_volume_ok cfg svms v) else none

/-- A filesystem report.  `storage_efficiency` is `none` for the `"N/A"`
rendering (the over-1000% clamp). -/
structure FsRep where
  fsid : String
  gen : String
  state : String
  deployment_type : String
  storage_gib : ℤ
  provisioned_gib : ℤ
  slack_gib : ℤ
  slack_percentage : ℤ
  throughput_capacity : ℤ
  total_read_throughput : ℚ
  total_write_throughput : ℚ
  total_throughput : ℚ
  storage_efficiency : Option ℚ
  storage_efficiency_percentage : ℚ
  monthly_cost_estimate : ℚ
  encryption_status : Rec
  tags : List Tag
  volumes : List VolRep
  recommendations : List Rec
deriving DecidableEq

/-- The loop body of `analyze_filesystems` for one filesystem: process
its volumes (skipping those whose processing failed), accumulate the
totals, compute slack and efficiency, and build the recommendation list
in the source's order. -/
def analyze_one_fs (cfg : Config) (ok : Vol → Bool) (fs : Fs) : FsRep :=
  let encryption_status := check_encryption fs
  let formatted_fs_tags := fs.tags.filter (fun t => t.key != "" && t.value != "")
  let okVols := fs.vols.filter ok
  let vol_results := okVols.map (process_volume_ok cfg fs.svms)
  let tot_r := (vol_results.map VolRep.read_throughput_mbs).sum
  let tot_w := (vol_results.map VolRep.write_throughput_mbs).sum
  let total_logical_bytes : ℤ := (okVols.map Vol.logicalSizeInBytes).sum
  let total_physical_bytes : ℤ := (okVols.map Vol.physicalSizeInBytes).sum
  let prov_gib : ℤ := ⌊((fs.vols.map Vol.sizeInMegabytes).sum : ℚ) / 1024⌋
  let slack_gib : ℤ := max 0 (fs.storageCapacity - prov_gib)
  let slack_pct : ℤ :=
    pyInt (if fs.storageCapacity > 0
           then 100 * ((slack_gib : ℚ) / (fs.storageCapacity : ℚ)) else 0)
  let storage_efficiency_pct : ℚ :=
    if total_logical_bytes > 0
    then ((total_logical_bytes : ℚ) - (total_physical_bytes : ℚ))
          / (total_logical_bytes : ℚ) * 100
    else 0
  let storage_efficiency_clamped : Option ℚ :=
    if storage_efficiency_pct > 1000 then none else some storage_efficiency_pct
  let recs0 : List Rec :=
    if encryption_status.rtype = RecType.warning then [encryption_status] else []
  let recs1 := recs0 ++
    (if slack_pct > 80 then [⟨RecType.warning, Msg.slackHigh slack_pct⟩]
     else if slack_pct < 5 then [⟨RecType.critical, Msg.slackLow slack_pct⟩]
     else [])
  let tot_all := tot_r + tot_w
  let recs2 := recs1 ++
    (if tot_all > (fs.throughputCapacity : ℚ) then
      [⟨RecType.critical,
        Msg.throughputExceeds tot_all fs.throughputCapacity
          (max 128 ⌈tot_all * (6 / 5)⌉)⟩]
     else [])
  let recs3 := recs2 ++
    (if storage_efficiency_pct < 20 then
      [⟨RecType.info, Msg.lowEfficiencyFs storage_efficiency_pct⟩]
     else [])
  { fsid := fs.fileSystemId
    gen := fs.fsVersion
    state := fs.lifecycle
    deployment_type := fs.deploymentType
    storage_gib := fs.storageCapacity
    provisioned_gib := prov_gib
    slack_gib := slack_gib
    slack_percentage := slack_pct
    throughput_capacity := fs.throughputCapacity
    total_read_throughput := tot_r
    total_write_throughput := tot_w
    total_throughput := tot_all
    storage_efficiency := storage_efficiency_clamped
    storage_efficiency_percentage := storage_efficiency_pct
    monthly_cost_estimate := cfg.price * (fs.storageCapacity : ℚ)
    encryption_status := encryption_status
    tags := formatted_fs_tags
    volumes := vol_results
    recommendations := recs3 }

/-- The placeholder report `analyze_filesystems` returns for an empty
filesystem list. -/
def empty_fleet_report : FsRep :=
  { fsid := "N/A"
    gen := "N/A"
    state := "N/A"
    deployment_type := "N/A"
    storage_gib := 0
    provisioned_gib := 0
    slack_gib := 0
    slack_percentage := 0
    throughput_capacity := 0
    total_read_throughput := 0
    total_write_throughput := 0
    total_throughput := 0
    storage_efficiency := none
    storage_efficiency_percentage := 0
    monthly_cost_estimate := 0
    encryption_status := ⟨RecType.info, Msg.noFilesystems⟩
    tags := []
    volumes := []
    recommendations := [⟨RecType.info, Msg.noFilesystems⟩] }

/-- `analyze_filesystems` from the source: the placeholder for an empty
fleet, otherwise one report per filesystem (entries without a
`FileSystemId` are skipped by the loop's `continue`). -/
def analyze_filesystems (cfg : Config) (ok : Vol → Bool) (fs_list : List Fs) :
    List FsRep :=
  if fs_list.isEmpty then [empty_fleet_report]
  else (fs_list.filter (fun fs => fs.fileSystemId != "")).map (analyze_one_fs cfg ok)

/- ------------------------------------------------------------------ -/
/-  Concrete example inputs used by the test-vector conjuncts          -/
/- ------------------------------------------------------------------ -/

/-- The default configuration of `lambda_handler` (region `eu-west-1`,
3-day lookback, period 840 s, p95, default price 0.145 USD/GiB-month). -/
def base_cfg : Config :=
  { region := "eu-west-1", lookback_days := 3, period := 840, pctl := 95,
    fsid := "", top_vols := 0, price := 145 / 1000 }

/-- A plain 10 GiB volume with no metric samples. -/
def default_vol : Vol :=
  { volumeId := "vol-1", svmId := "svm-1", junctionPath := "/vol1",
    sizeInMegabytes := 10240, tieringPolicyName := "NONE",
    logicalSizeInBytes := 0, physicalSizeInBytes := 0, tags := [],
    readSeries := [], writeSeries := [], io45 := none }

/-- A plain encrypted 100 GiB filesystem with no volumes. -/
def default_fs : Fs :=
  { fileSystemId := "fs-1", fsVersion := "GEN_1", lifecycle := "AVAILABLE",
    storageCapacity := 100, throughputCapacity := 128,
    deploymentType := "SINGLE_AZ_1", kmsKeyId := some "key-1", tags := [],
    svms := [], vols := [] }

/-- Configuration whose period makes a raw sample of `10 * 2^40` bytes
turn into exactly 10 MB/s. -/
def c3_cfg : Config := { base_cfg with period := 1048576 }

/-- Volume giving read p95 = 10 MB/s and efficiency 100/85 logical over
physical bytes. -/
def c3_vol : Vol :=
  { default_vol with
      readSeries := [10 * 1048576 * 1048576],
      logicalSizeInBytes := 100, physicalSizeInBytes := 85 }

/-- Filesystem with 90% slack, total throughput 10 MB/s over a capacity
of 5 MB/s, and 15% aggregate efficiency. -/
def c3_fs : Fs := { default_fs with throughputCapacity := 5, vols := [c3_vol] }

/-- Volume with malformed accounting: negative physical bytes, driving
the filesystem efficiency percentage to 1100%. -/
def c2_vol : Vol :=
  { default_vol with logicalSizeInBytes := 1, physicalSizeInBytes := -10 }

/-- Filesystem whose computed efficiency percentage is 1100%. -/
def c2_fs : Fs := { default_fs with vols := [c2_vol] }

/-- Filesystem with capacity 100 GiB and one 92160 MiB (90 GiB) volume. -/
def c5_fs : Fs :=
  { default_fs with vols := [{ default_vol with sizeInMegabytes := 92160 }] }

/-- A volume whose processing is forced to fail by `c7_ok`. -/
def c7_bad_vol : Vol := { default_vol with volumeId := "bad" }

/-- Filesystem with one good and one failing volume. -/
def c7_fs : Fs := { default_fs with vols := [default_vol, c7_bad_vol] }

/-- Failure oracle that fails exactly the volume named `bad`. -/
def c7_ok : Vol → Bool := fun v => v.volumeId != "bad"

/- ------------------------------------------------------------------ -/
/-  Helper lemmas                                                      -/
/- ------------------------------------------------------------------ -/

theorem pyGet_eq_getD (l : List ℚ) (i : ℤ) (h0 : 0 ≤ i) (hlt : i < (l.length : ℤ)) :
    pyGet l i = some (l.getD i.toNat 0) := by
  have hnat : i.toNat < l.length := by omega
  have hneg : ¬ i < 0 := by omega
  simp only [pyGet]
  rw [if_neg hneg, if_pos h0]
  rw [List.get?_eq_getElem?, List.getElem?_eq_getElem hnat,
    List.getD_eq_getElem?_getD, List.getElem?_eq_getElem hnat]
  rfl

theorem pct_calc_eq_formula (values : List ℚ) (p : ℚ)
    (hp0 : 0 ≤ p) (hp1 : p ≤ 100) (hne : values ≠ []) :
    pct_calc values p =
      (let sv := values.insertionSort (· ≤ ·)
       let r : ℚ := ((values.length : ℚ) - 1) * (p / 100)
       if ⌊r⌋ = ⌈r⌉ then sv.getD ⌊r⌋.toNat 0
       else sv.getD ⌊r⌋.toNat 0
            + (r - (⌊r⌋ : ℚ)) * (sv.getD ⌈r⌉.toNat 0 - sv.getD ⌊r⌋.toNat 0)) := by
  have hlen : 0 < values.length := List.length_pos.mpr hne
  have hcast : (((values.length : ℤ) - 1 : ℤ) : ℚ) = (values.length : ℚ) - 1 := by
    push_cast; ring
  simp only [pct_calc, if_neg hne, hcast]
  have hsvlen : (values.insertionSort (· ≤ ·)).length = values.length :=
    (List.perm_insertionSort _ values).length_eq
  have hr0 : 0 ≤ ((values.length : ℚ) - 1) * (p / 100) := by
    have h1 : (1:ℚ) ≤ (values.length : ℚ) := by exact_mod_cast hlen
    have := div_nonneg hp0 (by norm_num : (0:ℚ) ≤ 100)
    nlinarith
  have hr1 : ((values.length : ℚ) - 1) * (p / 100) ≤ (values.length : ℚ) - 1 := by
    have h1 : (1:ℚ) ≤ (values.length : ℚ) := by exact_mod_cast hlen
    have hle : p / 100 ≤ 1 := (div_le_one (by norm_num)).mpr hp1
    nlinarith [div_nonneg hp0 (by norm_num : (0:ℚ) ≤ 100)]
  have hlo0 : 0 ≤ ⌊((values.length : ℚ) - 1) * (p / 100)⌋ := Int.floor_nonneg.mpr hr0
  have hhiub : ⌈((values.length : ℚ) - 1) * (p / 100)⌉ ≤ (values.length : ℤ) - 1 := by
    rw [Int.ceil_le]; push_cast; exact hr1
  have hfc := Int.floor_le_ceil (((values.length : ℚ) - 1) * (p / 100))
  have hsvlenz : ((values.insertionSort (· ≤ ·)).length : ℤ) = (values.length : ℤ) := by
    exact_mod_cast hsvlen
  have hlolt : ⌊((values.length : ℚ) - 1) * (p / 100)⌋ <
      ((values.insertionSort (· ≤ ·)).length : ℤ) := by omega
  have hhilt : ⌈((values.length : ℚ) - 1) * (p / 100)⌉ <
      ((values.insertionSort (· ≤ ·)).length : ℤ) := by omega
  have hhi0 : 0 ≤ ⌈((values.length : ℚ) - 1) * (p / 100)⌉ := by omega
  rw [pyGet_eq_getD _ _ hlo0 hlolt, pyGet_eq_getD _ _ hhi0 hhilt]
  by_cases hceq : ⌊((values.length : ℚ) - 1) * (p / 100)⌋ =
      ⌈((values.length : ℚ) - 1) * (p / 100)⌉
  · simp [hceq]
  · simp [hceq]

theorem pct_calc_nil (p : ℚ) : pct_calc [] p = 0 := by
  simp [pct_calc]

theorem pct_calc_singleton (x p : ℚ) : pct_calc [x] p = x := by
  simp [pct_calc, pyGet, List.insertionSort, List.orderedInsert]

theorem p95_mb_s_nil (cfg : Config) : p95_mb_s cfg [] = 0 := by
  simp [p95_mb_s, List.insertionSort, pct_calc_nil]

theorem p95_mb_s_singleton (cfg : Config) (v : ℚ) :
    p95_mb_s cfg [v] = (v / mb) / cfg.period := by
  simp [p95_mb_s, List.insertionSort, List.orderedInsert, pct_calc_singleton]

theorem pyInt_eq_floor (q : ℚ) (h : 0 ≤ q) : pyInt q = ⌊q⌋ := by
  simp [pyInt, h]

theorem pyInt_zero : pyInt 0 = 0 := by
  simp [pyInt]

theorem filter_erase_of_not_ok (ok : Vol → Bool) (v : Vol) (hok : ok v = false)
    (l : List Vol) : (l.erase v).filter ok = l.filter ok := by
  induction l with
  | nil => simp
  | cons a l ih =>
    rw [List.erase_cons]
    by_cases hav : a = v
    · subst hav
      simp [List.filter_cons, hok]
    · have : (a == v) = false := by simp [hav]
      simp only [this, if_neg, Bool.false_eq_true, not_false_eq_true, List.filter_cons, ih]

theorem pyGet_map_mul (c : ℚ) (l : List ℚ) (i : ℤ) :
    pyGet (l.map (fun x => c * x)) i = (pyGet l i).map (fun x => c * x) := by
  simp only [pyGet, List.length_map]
  split <;> split <;> simp [List.get?_map]

theorem insertionSort_map_mul (c : ℚ) (hc : 0 ≤ c) (l : List ℚ) :
    (l.map (fun x => c * x)).insertionSort (· ≤ ·)
      = (l.insertionSort (· ≤ ·)).map (fun x => c * x) := by
  have hperm : ((l.map (fun x => c * x)).insertionSort (· ≤ ·)).Perm
      ((l.insertionSort (· ≤ ·)).map (fun x => c * x)) :=
    (List.perm_insertionSort _ _).trans
      ((List.perm_insertionSort (· ≤ ·) l).symm.map _)
  have hs1 : List.Sorted (· ≤ ·) ((l.map (fun x => c * x)).insertionSort (· ≤ ·)) :=
    List.sorted_insertionSort _ _
  have hs2 : List.Sorted (· ≤ ·) ((l.insertionSort (· ≤ ·)).map (fun x => c * x)) :=
    List.Pairwise.map _ (fun a b h => mul_le_mul_of_nonneg_left h hc)
      (List.sorted_insertionSort _ l)
  exact List.eq_of_perm_of_sorted hperm hs1 hs2

theorem pct_calc_map_mul (c : ℚ) (hc : 0 ≤ c) (l : List ℚ) (p : ℚ) :
    pct_calc (l.map (fun x => c * x)) p = c * pct_calc l p := by
  unfold pct_calc
  rcases eq_or_ne l [] with rfl | hl
  · simp
  · have hml : l.map (fun x => c * x) ≠ [] := by
      simpa using hl
    rw [if_neg hml, if_neg hl]
    simp only [List.length_map, insertionSort_map_mul c hc, pyGet_map_mul]
    split
    · rcases pyGet (l.insertionSort (· ≤ ·)) _ with _ | a <;> simp
    · rcases pyGet (l.insertionSort (· ≤ ·)) ⌊((l.length : ℤ) - 1 : ℤ) * (p / 100)⌋ with _ | a <;>
        rcases pyGet (l.insertionSort (· ≤ ·)) ⌈((l.length : ℤ) - 1 : ℤ) * (p / 100)⌉ with _ | b <;>
        simp <;> ring

/- ------------------------------------------------------------------ -/
/-  Claims                                                             -/
/- ------------------------------------------------------------------ -/

/-- C1: for every sample list and percentile `p ∈ [0,100]`, `pct_calc`
sorts ascending, takes rank `r = (n-1)·(p/100)`, returns the sample at
that index when `⌊r⌋ = ⌈r⌉` and otherwise interpolates linearly; in
particular it returns 3 for `([1,2,3,4,5], 50)`, 4.8 for
`([1,2,3,4,5], 95)`, and 0 on the empty list. -/
theorem C1_percentile_estimator (values : List ℚ) (p : ℚ)
    (hp0 : 0 ≤ p) (hp1 : p ≤ 100) :
    (values ≠ [] →
      pct_calc values p =
        (let sv := values.insertionSort (· ≤ ·)
         let r : ℚ := ((values.length : ℚ) - 1) * (p / 100)
         if ⌊r⌋ = ⌈r⌉ then sv.getD ⌊r⌋.toNat 0
         else sv.getD ⌊r⌋.toNat 0
              + (r - (⌊r⌋ : ℚ)) * (sv.getD ⌈r⌉.toNat 0 - sv.getD ⌊r⌋.toNat 0)))
    ∧ pct_calc [1, 2, 3, 4, 5] 50 = 3
    ∧ pct_calc [1, 2, 3, 4, 5] 95 = 24 / 5
    ∧ pct_calc [] p = 0 := by
  refine ⟨fun hne => pct_calc_eq_formula values p hp0 hp1 hne, ?_, ?_, pct_calc_nil p⟩
  · rw [pct_calc_eq_formula [1, 2, 3, 4, 5] 50 (by norm_num) (by norm_num) (by simp)]
    have hs : (([1, 2, 3, 4, 5] : List ℚ).insertionSort (· ≤ ·)) = [1, 2, 3, 4, 5] := by
      decide
    have hr : (((([1, 2, 3, 4, 5] : List ℚ).length : ℚ) - 1) * (50 / 100) : ℚ) = 2 := by
      norm_num
    simp only [hs, hr]
    have hf : ⌊(2 : ℚ)⌋ = 2 := by
      rw [Int.floor_eq_iff] <;> norm_num
    have hc : ⌈(2 : ℚ)⌉ = 2 := by
      rw [Int.ceil_eq_iff] <;> norm_num
    rw [hf, hc]
    norm_num
    decide
  · rw [pct_calc_eq_formula [1, 2, 3, 4, 5] 95 (by norm_num) (by norm_num) (by simp)]
    have hs : (([1, 2, 3, 4, 5] : List ℚ).insertionSort (· ≤ ·)) = [1, 2, 3, 4, 5] := by
      decide
    have hr : (((([1, 2, 3, 4, 5] : List ℚ).length : ℚ) - 1) * (95 / 100) : ℚ) = 19 / 5 := by
      norm_num
    simp only [hs, hr]
    have hf : ⌊(19 / 5 : ℚ)⌋ = 3 := by
      rw [Int.floor_eq_iff] <;> norm_num
    have hc : ⌈(19 / 5 : ℚ)⌉ = 4 := by
      rw [Int.ceil_eq_iff] <;> norm_num
    rw [hf, hc]
    have h3 : ([1, 2, 3, 4, 5] : List ℚ).getD (Int.toNat 3) 0 = 4 := by decide
    have h4 : ([1, 2, 3, 4, 5] : List ℚ).getD (Int.toNat 4) 0 = 5 := by decide
    rw [h3, h4]
    norm_num

/-- Witness for C1 at `values = [1,2,3,4,5]`, `p = 50`. -/
theorem C1_percentile_estimator_witness :
    (0 : ℚ) ≤ 50 ∧ (50 : ℚ) ≤ 100 ∧ pct_calc [1, 2, 3, 4, 5] 50 = 3 :=
  ⟨by decide, by decide,
    (C1_percentile_estimator [1, 2, 3, 4, 5] 50 (by decide) (by decide)).2.1⟩

/-- C6: an empty filesystem list yields exactly one placeholder report
with fsid `"N/A"`, every numeric field 0, no volumes, and exactly one
informational recommendation. -/
theorem C6_empty_fleet (cfg : Config) (ok : Vol → Bool) :
    analyze_filesystems cfg ok [] =
      [{ fsid := "N/A", gen := "N/A", state := "N/A", deployment_type := "N/A",
         storage_gib := 0, provisioned_gib := 0, slack_gib := 0,
         slack_percentage := 0, throughput_capacity := 0,
         total_read_throughput := 0, total_write_throughput := 0,
         total_throughput := 0, storage_efficiency := none,
         storage_efficiency_percentage := 0, monthly_cost_estimate := 0,
         encryption_status := ⟨RecType.info, Msg.noFilesystems⟩, tags := [],
         volumes := [],
         recommendations := [⟨RecType.info, Msg.noFilesystems⟩] }] := rfl

/-- C8: the throughput analyzer is inversely proportional to the
sampling interval: doubling the interval over identical byte sums
exactly halves the computed value, for every series and configured
percentile. -/
theorem C8_interval_inverse_proportionality (cfg : Config) (series : List ℚ) :
    p95_mb_s { cfg with period := 2 * cfg.period } series
      = p95_mb_s cfg series / 2 := by
  obtain ⟨reg, ld, per, pc, fz, tv, pr⟩ := cfg
  show pct_calc ((series.map (fun val => val / mb / (2 * per))).insertionSort (· ≤ ·)) pc
      = pct_calc ((series.map (fun val => val / mb / per)).insertionSort (· ≤ ·)) pc / 2
  have hmap : series.map (fun val => val / mb / (2 * per))
      = (series.map (fun val => val / mb / per)).map (fun x => (1 / 2 : ℚ) * x) := by
    rw [List.map_map]
    apply List.map_congr_left
    intro v _
    show v / mb / (2 * per) = (1 / 2 : ℚ) * (v / mb / per)
    rw [div_div, div_div, show mb * (2 * per) = mb * per * 2 by ring, ← div_div]
    ring
  rw [hmap, insertionSort_map_mul (1 / 2 : ℚ) (by norm_num),
    pct_calc_map_mul (1 / 2 : ℚ) (by norm_num)]
  ring

/-- C9: the volume-count limiter `TOP_VOLS` is accepted in the
configuration but never applied: two runs differing only in `top_vols`
produce identical analysis output. -/
theorem C9_top_vols_dead_configuration (cfg : Config) (a b : ℤ)
    (ok : Vol → Bool) (fs_list : List Fs) :
    analyze_filesystems { cfg with top_vols := a } ok fs_list
      = analyze_filesystems { cfg with top_vols := b } ok fs_list := by
  obtain ⟨reg, ld, per, pc, fz, tv, pr⟩ := cfg
  rfl

/-- C4: a successfully processed volume's recommendation list is the
concatenation, in fixed order with independent rules, of: a small-volume
info entry followed by a separator when `size_gib < 10`; a low-IO warning
followed by a separator when total throughput < 0.01 MB/s; and a
low-efficiency info entry with no trailing separator when
`0 < efficiency_ratio < 1.5`. -/
theorem C4_volume_recommendations (cfg : Config) (svms : List Svm) (v : Vol) :
    (process_volume_ok cfg svms v).recommendations =
      (if (process_volume_ok cfg svms v).size_gib < 10 then
        [⟨RecType.info, Msg.volSmall (process_volume_ok cfg svms v).size_gib⟩,
         ⟨RecType.separator, Msg.emptyMsg⟩]
       else [])
      ++ (if (process_volume_ok cfg svms v).total_throughput_mbs < cold_io_threshold then
        [⟨RecType.warning,
          Msg.volLowIo (process_volume_ok cfg svms v).total_throughput_mbs⟩,
         ⟨RecType.separator, Msg.emptyMsg⟩]
       else [])
      ++ (let ratio : ℚ :=
            if v.physicalSizeInBytes > 0
            then (v.logicalSizeInBytes : ℚ) / (v.physicalSizeInBytes : ℚ) else 0
          if ratio > 0 ∧ ratio < 3 / 2 then
            [⟨RecType.info, Msg.volLowEfficiency ratio⟩]
          else []) := by
  simp only [process_volume_ok, List.nil_append]

/-- C5: for every filesystem, `slack_gib = max 0 (capacity − provisioned)`
and `slack_percentage = ⌊100·slack/capacity⌋` when the capacity is
positive, `0` otherwise (no division fault); in particular capacity 100
with one 92160 MiB (90 GiB) volume yields `slack_gib = 10` and
`slack_percentage = 10`. -/
theorem C5_slack (cfg : Config) (ok : Vol → Bool) (fs : Fs) :
    ((analyze_one_fs cfg ok fs).slack_gib
        = max 0 (fs.storageCapacity - (analyze_one_fs cfg ok fs).provisioned_gib))
    ∧ ((analyze_one_fs cfg ok fs).slack_percentage =
        if 0 < fs.storageCapacity
        then ⌊(100 : ℚ) * (((analyze_one_fs cfg ok fs).slack_gib : ℚ)
                / (fs.storageCapacity : ℚ))⌋
        else 0)
    ∧ (analyze_one_fs cfg ok c5_fs).slack_gib = 10
    ∧ (analyze_one_fs cfg ok c5_fs).slack_percentage = 10 := by
  have hsum : (c5_fs.vols.map Vol.sizeInMegabytes).sum = (92160 : ℤ) := by decide
  have hcast : (((92160 : ℤ) : ℚ)) / 1024 = 90 := by
    push_cast; norm_num
  have hprov : ⌊((c5_fs.vols.map Vol.sizeInMegabytes).sum : ℚ) / 1024⌋ = 90 := by
    rw [hsum, hcast, Int.floor_eq_iff] <;> norm_num
  have h10f : ⌊(10 : ℚ)⌋ = 10 := by
    rw [Int.floor_eq_iff] <;> norm_num
  refine ⟨?_, ?_, ?_, ?_⟩
  · simp only [analyze_one_fs]
  · simp only [analyze_one_fs, gt_iff_lt]
    split_ifs with hcap
    · refine pyInt_eq_floor _ ?_
      have h1 : (0 : ℚ) ≤ ((max 0 (fs.storageCapacity -
          ⌊((fs.vols.map Vol.sizeInMegabytes).sum : ℚ) / 1024⌋) : ℤ) : ℚ) := by
        exact_mod_cast le_max_left 0 _
      have h2 : (0 : ℚ) < (fs.storageCapacity : ℚ) := by exact_mod_cast hcap
      exact mul_nonneg (by norm_num) (div_nonneg h1 h2.le)
    · exact pyInt_zero
  · simp only [analyze_one_fs, hprov]
    decide
  · simp only [analyze_one_fs, hprov]
    have hm : max (0 : ℤ) (c5_fs.storageCapacity - 90) = 10 := by decide
    have hcap : c5_fs.storageCapacity = 100 := by decide
    rw [hm, hcap]
    norm_num
    rw [pyInt_eq_floor _ (by norm_num)]
    exact h10f

/-- C7: a volume whose processing fails is absent from its filesystem's
volume list, the remaining volumes are all still processed and reported
in order, and the volume list is the same as if the failing volume had
not been in the input at all. -/
theorem C7_volume_failure_isolation (cfg : Config) (ok : Vol → Bool) (fs : Fs) :
    ((analyze_one_fs cfg ok fs).volumes
        = (fs.vols.filter ok).map (process_volume_ok cfg fs.svms))
    ∧ (∀ v, v ∈ fs.vols → ok v = false →
        (analyze_one_fs cfg ok fs).volumes
          = (analyze_one_fs cfg ok { fs with vols := fs.vols.erase v }).volumes) := by
  constructor
  · simp only [analyze_one_fs]
  · intro v _ hok
    simp only [analyze_one_fs]
    rw [filter_erase_of_not_ok ok v hok]

/-- Witness for C7: the volume named `bad` fails, is absent from the
report, and the report's volume list matches the one computed without it. -/
theorem C7_volume_failure_isolation_witness :
    c7_bad_vol ∈ c7_fs.vols ∧ c7_ok c7_bad_vol = false ∧
      (analyze_one_fs base_cfg c7_ok c7_fs).volumes
        = (analyze_one_fs base_cfg c7_ok
            { c7_fs with vols := c7_fs.vols.erase c7_bad_vol }).volumes := by
  have hmem : c7_bad_vol ∈ c7_fs.vols := by decide
  have hok : c7_ok c7_bad_vol = false := by decide
  exact ⟨hmem, hok,
    (C7_volume_failure_isolation base_cfg c7_ok c7_fs).2 c7_bad_vol hmem hok⟩

/-- C10: `provisioned_gib` (hence slack) is computed from all volume
descriptors of the filesystem, failed ones included, while the
throughput totals and the efficiency sums only cover the successfully
processed volumes. -/
theorem C10_provisioned_vs_totals (cfg : Config) (ok : Vol → Bool) (fs : Fs) :
    ((analyze_one_fs cfg ok fs).provisioned_gib
        = ⌊(((fs.vols.map Vol.sizeInMegabytes).sum : ℤ) : ℚ) / 1024⌋)
    ∧ ((analyze_one_fs cfg ok fs).total_read_throughput
        = ((fs.vols.filter ok).map
            (fun v => (process_volume_ok cfg fs.svms v).read_throughput_mbs)).sum)
    ∧ ((analyze_one_fs cfg ok fs).total_write_throughput
        = ((fs.vols.filter ok).map
            (fun v => (process_volume_ok cfg fs.svms v).write_throughput_mbs)).sum)
    ∧ ((analyze_one_fs cfg ok fs).storage_efficiency_percentage =
        (let tl : ℤ := ((fs.vols.filter ok).map Vol.logicalSizeInBytes).sum
         let tp : ℤ := ((fs.vols.filter ok).map Vol.physicalSizeInBytes).sum
         if tl > 0 then (((tl : ℚ) - (tp : ℚ)) / (tl : ℚ)) * 100 else 0)) := by
  refine ⟨?_, ?_, ?_, ?_⟩ <;>
    simp [analyze_one_fs, List.map_map, Function.comp_def]

/-- C2 counterexample: with one volume carrying logical 1 and physical
−10 bytes the computed efficiency is 1100% > 1000%, yet the reported
`storage_efficiency_percentage` field carries the raw 1100 (only the
`storage_efficiency` string is clamped to the sentinel). -/
theorem C2_counterexample :
    (1000 : ℚ) <
        (analyze_one_fs base_cfg (fun _ => true) c2_fs).storage_efficiency_percentage
    ∧ (analyze_one_fs base_cfg (fun _ => true) c2_fs).storage_efficiency_percentage
        = 1100
    ∧ (analyze_one_fs base_cfg (fun _ => true) c2_fs).storage_efficiency = none := by
  have htl : ((c2_fs.vols.filter (fun _ => true)).map Vol.logicalSizeInBytes).sum
      = (1 : ℤ) := by decide
  have htp : ((c2_fs.vols.filter (fun _ => true)).map Vol.physicalSizeInBytes).sum
      = (-10 : ℤ) := by decide
  have hpct : (analyze_one_fs base_cfg (fun _ => true) c2_fs).storage_efficiency_percentage
      = 1100 := by
    simp only [analyze_one_fs, htl, htp]
    norm_num
  refine ⟨by rw [hpct]; norm_num, hpct, ?_⟩
  have hval : (analyze_one_fs base_cfg (fun _ => true) c2_fs).storage_efficiency
      = (if (analyze_one_fs base_cfg (fun _ => true) c2_fs).storage_efficiency_percentage
            > 1000 then none
         else some (analyze_one_fs base_cfg (fun _ => true) c2_fs).storage_efficiency_percentage) := by
    simp only [analyze_one_fs]
  rw [hval, hpct]
  norm_num

/-- C2 (amended): the filesystem efficiency percentage is
`(Σlogical − Σphysical)/Σlogical × 100` when `Σlogical > 0` and `0`
otherwise; when it exceeds 1000% the `storage_efficiency` string field is
clamped to the "not applicable" sentinel, while
`storage_efficiency_percentage` always carries the raw value. -/
theorem C2_efficiency_clamp (cfg : Config) (ok : Vol → Bool) (fs : Fs) :
    ((analyze_one_fs cfg ok fs).storage_efficiency_percentage =
      (let tl : ℤ := ((fs.vols.filter ok).map Vol.logicalSizeInBytes).sum
       let tp : ℤ := ((fs.vols.filter ok).map Vol.physicalSizeInBytes).sum
       if tl > 0 then (((tl : ℚ) - (tp : ℚ)) / (tl : ℚ)) * 100 else 0))
    ∧ ((analyze_one_fs cfg ok fs).storage_efficiency =
        (if (analyze_one_fs cfg ok fs).storage_efficiency_percentage > 1000 then none
         else some (analyze_one_fs cfg ok fs).storage_efficiency_percentage)) := by
  constructor <;> simp [analyze_one_fs, List.map_map, Function.comp]

/-- C3: filesystem recommendations are built in the fixed order
encryption-warning, slack (warning above 80%, critical below 5%, nothing
in between), throughput-critical with target `max 128 ⌈total·1.2⌉`, then
efficiency-info below 20%; on the synthetic filesystem with 90% slack,
10 MB/s demand over 5 MB/s capacity, 15% efficiency and an encryption
key, the list is exactly slack-warning, throughput-critical,
efficiency-info. -/
theorem C3_fs_recommendations (cfg : Config) (ok : Vol → Bool) (fs : Fs) :
    ((analyze_one_fs cfg ok fs).recommendations =
      (if (check_encryption fs).rtype = RecType.warning then [check_encryption fs]
       else [])
      ++ (if (analyze_one_fs cfg ok fs).slack_percentage > 80 then
            [⟨RecType.warning, Msg.slackHigh (analyze_one_fs cfg ok fs).slack_percentage⟩]
          else if (analyze_one_fs cfg ok fs).slack_percentage < 5 then
            [⟨RecType.critical, Msg.slackLow (analyze_one_fs cfg ok fs).slack_percentage⟩]
          else [])
      ++ (if (analyze_one_fs cfg ok fs).total_throughput > (fs.throughputCapacity : ℚ) then
            [⟨RecType.critical,
              Msg.throughputExceeds (analyze_one_fs cfg ok fs).total_throughput
                fs.throughputCapacity
                (max 128 ⌈(analyze_one_fs cfg ok fs).total_throughput * (6 / 5)⌉)⟩]
          else [])
      ++ (if (analyze_one_fs cfg ok fs).storage_efficiency_percentage < 20 then
            [⟨RecType.info,
              Msg.lowEfficiencyFs (analyze_one_fs cfg ok fs).storage_efficiency_percentage⟩]
          else []))
    ∧ (analyze_one_fs c3_cfg (fun _ => true) c3_fs).recommendations =
        [⟨RecType.warning, Msg.slackHigh 90⟩,
         ⟨RecType.critical, Msg.throughputExceeds 10 5 128⟩,
         ⟨RecType.info, Msg.lowEfficiencyFs 15⟩] := by
  have hgen : ∀ (cfg' : Config) (ok' : Vol → Bool) (fs' : Fs),
      (analyze_one_fs cfg' ok' fs').recommendations =
        (if (check_encryption fs').rtype = RecType.warning then [check_encryption fs']
         else [])
        ++ (if (analyze_one_fs cfg' ok' fs').slack_percentage > 80 then
              [⟨RecType.warning, Msg.slackHigh (analyze_one_fs cfg' ok' fs').slack_percentage⟩]
            else if (analyze_one_fs cfg' ok' fs').slack_percentage < 5 then
              [⟨RecType.critical, Msg.slackLow (analyze_one_fs cfg' ok' fs').slack_percentage⟩]
            else [])
        ++ (if (analyze_one_fs cfg' ok' fs').total_throughput > (fs'.throughputCapacity : ℚ) then
              [⟨RecType.critical,
                Msg.throughputExceeds (analyze_one_fs cfg' ok' fs').total_throughput
                  fs'.throughputCapacity
                  (max 128 ⌈(analyze_one_fs cfg' ok' fs').total_throughput * (6 / 5)⌉)⟩]
            else [])
        ++ (if (analyze_one_fs cfg' ok' fs').storage_efficiency_percentage < 20 then
              [⟨RecType.info,
                Msg.lowEfficiencyFs (analyze_one_fs cfg' ok' fs').storage_efficiency_percentage⟩]
            else []) := by
    intro cfg' ok' fs'
    simp only [analyze_one_fs, List.append_assoc]
  refine ⟨hgen cfg ok fs, ?_⟩
  -- evaluate the synthetic example
  have hr95 : p95_mb_s c3_cfg c3_vol.readSeries = 10 := by
    have hser : c3_vol.readSeries = [10 * 1048576 * 1048576] := rfl
    rw [hser, p95_mb_s_singleton]
    have hper : c3_cfg.period = 1048576 := rfl
    rw [hper]
    norm_num [mb]
  have hw95 : p95_mb_s c3_cfg c3_vol.writeSeries = 0 := by
    have hser : c3_vol.writeSeries = [] := rfl
    rw [hser, p95_mb_s_nil]
  have hfil : c3_fs.vols.filter (fun _ => true) = [c3_vol] := rfl
  have htot : (analyze_one_fs c3_cfg (fun _ => true) c3_fs).total_throughput = 10 := by
    simp only [analyze_one_fs, hfil, List.map_cons, List.map_nil, List.sum_cons,
      List.sum_nil, process_volume_ok]
    rw [hr95, hw95]
    norm_num
  have hsum : (c3_fs.vols.map Vol.sizeInMegabytes).sum = (10240 : ℤ) := by decide
  have hprov : ⌊((c3_fs.vols.map Vol.sizeInMegabytes).sum : ℚ) / 1024⌋ = 10 := by
    rw [hsum, show ((10240 : ℤ) : ℚ) / 1024 = 10 by push_cast; norm_num,
      Int.floor_eq_iff] <;> norm_num
  have hslk : (analyze_one_fs c3_cfg (fun _ => true) c3_fs).slack_percentage = 90 := by
    simp only [analyze_one_fs, hprov]
    have hm : max (0 : ℤ) (c3_fs.storageCapacity - 10) = 90 := by decide
    have hcap : c3_fs.storageCapacity = 100 := by decide
    rw [hm, hcap]
    norm_num
    rw [pyInt_eq_floor _ (by norm_num), Int.floor_eq_iff] <;> norm_num
  have heff : (analyze_one_fs c3_cfg (fun _ => true) c3_fs).storage_efficiency_percentage
      = 15 := by
    have htl : ((c3_fs.vols.filter (fun _ => true)).map Vol.logicalSizeInBytes).sum
        = (100 : ℤ) := by decide
    have htp : ((c3_fs.vols.filter (fun _ => true)).map Vol.physicalSizeInBytes).sum
        = (85 : ℤ) := by decide
    simp only [analyze_one_fs, htl, htp]
    norm_num
  have henc : check_encryption c3_fs = ⟨RecType.info, Msg.encrypted⟩ := by decide
  have hcapq : (c3_fs.throughputCapacity : ℚ) = 5 := by
    have : c3_fs.throughputCapacity = (5 : ℤ) := by decide
    rw [this]; norm_num
  have hceil : ⌈(10 : ℚ) * (6 / 5)⌉ = 12 := by
    rw [show (10 : ℚ) * (6 / 5) = 12 by norm_num, Int.ceil_eq_iff] <;> norm_num
  rw [hgen c3_cfg (fun _ => true) c3_fs, htot, hslk, heff, henc, hcapq, hceil]
  have hcap5 : c3_fs.throughputCapacity = (5 : ℤ) := by decide
  rw [hcap5]
  norm_num
  decide

end FsxAnalyzer
